import Mathlib

/-!
Shallow embedding of the arc-aframe-system core (src/ArcSystem.js and
src/EventDetailError.js): the pairing / topic-routing protocol of an
A-Frame component that relays input events over an MQTT broker.

Broker interactions (connect, subscribe, publish, unsubscribe, end),
DOM-level emissions and console diagnostics are modelled as an explicit
trace of effects; the component's instance fields (`this.paircode`,
`this.mqttClient`, which DOM listeners are currently attached) are an
explicit state record.  Each `async` listener of the component becomes a
function from state and event detail to an outcome (`Except` for a thrown
error), the successor state, and the list of effects it performed, in
program order.
-/

namespace Arc

/-- Modelled from the spec: the subtopic constants come from the external
`arc-events` package (`ArcTopics`), which is not part of this repository.
The spec fixes the set {STATUS, DATA, ADD_EVENT_LISTENER,
REMOVE_EVENT_LISTENER} but not the concrete strings; we use four distinct
delimiter-free placeholder values. -/
def ArcTopics.STATUS : String := "status"

/-- Modelled from the spec: see `ArcTopics.STATUS`. -/
def ArcTopics.DATA : String := "data"

/-- Modelled from the spec: see `ArcTopics.STATUS`. -/
def ArcTopics.ADD_EVENT_LISTENER : String := "add-event-listener"

/-- Modelled from the spec: see `ArcTopics.STATUS`. -/
def ArcTopics.REMOVE_EVENT_LISTENER : String := "remove-event-listener"

/-- The structured error thrown by the component on a malformed event
detail (src/EventDetailError.js, constructor arguments). -/
structure EventDetailError where
  event : String
  property : String
  expected : String
deriving DecidableEq, Repr

/-- A JavaScript runtime error, such as the TypeError raised when a method
is called on a `null` client. -/
inductive JsError where
  | typeError (msg : String)
deriving DecidableEq, Repr

/-- The decoded JSON content of an inbound broker message, restricted to
the fields the component reads: `message.type` (absent when the JSON
object has no such key) and `message.connected` (JS truthiness as a
boolean). -/
structure Msg where
  msgType : Option String := none
  connected : Bool := false
deriving DecidableEq, Repr

/-- An inbound MQTT payload: either it parses (`JSON.parse` succeeds and
yields a message) or it is malformed (`JSON.parse` throws). -/
inductive Payload where
  | wellFormed (m : Msg)
  | malformed
deriving DecidableEq, Repr

/-- The error thrown by `JSON.parse` on malformed input. -/
inductive DecodeError where
  | jsonParseError
deriving DecidableEq, Repr

/-- `JSON.parse(payload.toString())` as used in `messageListener`. -/
def jsonParse : Payload → Except DecodeError Msg
  | .wellFormed m => .ok m
  | .malformed => .error .jsonParseError

/-- An outbound JSON wire message, as built by `JSON.stringify` in
ArcSystem.js: either a status message `{type, connected}` or a control
message `{type}`. -/
inductive WireMsg where
  | status (ty : String) (connected : Bool)
  | control (ty : String)
deriving DecidableEq, Repr

/-- One observable effect of the component, in program order. -/
inductive Effect where
  | brokerConnect (url : String)
  | installMessageListener
  | subscribe (topic : String)
  | publish (topic : String) (message : WireMsg) (qos : Nat)
  | unsubscribe (topic : String)
  | endClient
  | emit (eventName : String)
  | dispatchWindowEvent (m : Msg)
  | consoleDebug (text : String)
deriving DecidableEq, Repr

/-- Whether an effect is an operation on the broker client
(subscribe/publish/unsubscribe/end), as opposed to a local diagnostic or
DOM emission. -/
def Effect.isBrokerOp : Effect → Bool
  | .subscribe _ => true
  | .publish _ _ _ => true
  | .unsubscribe _ => true
  | .endClient => true
  | _ => false

/-- The broker operations of a trace, in order. -/
def brokerOps (l : List Effect) : List Effect :=
  l.filter Effect.isBrokerOp

/-- The component's schema data: {protocol, host, port, app, path}
(`path` is optional: the code reads `this.data.path ?? ''`). -/
structure Config where
  protocol : String
  host : String
  port : Nat
  app : String
  path : Option String := none
deriving DecidableEq, Repr

/-- The MQTT connection URL built in `arcsConnectListener`:
`protocol://host:port
path`. -/
def brokerUrl (cfg : Config) : String :=
  cfg.protocol ++ "://" ++ cfg.host ++ ":" ++ toString cfg.port ++ cfg.path.getD ""

/-- The async MQTT client handle, restricted to the one field the
component reads (`this.mqttClient.connected`). -/
structure MqttClient where
  connected : Bool
deriving DecidableEq, Repr

/-- The component instance state: `this.paircode`, `this.mqttClient`, and
which of its DOM event listeners are currently attached. After `init`
(the default values) the paircode is empty, the client is `null`, and the
`arcs-connect` listener is attached. -/
structure ArcState where
  paircode : String := ""
  mqttClient : Option MqttClient := none
  connectAttached : Bool := true
  disconnectAttached : Bool := false
  beforeunloadAttached : Bool := false
  addListenerAttached : Bool := false
  removeListenerAttached : Bool := false
  messageInstalled : Bool := false
deriving DecidableEq, Repr

/-- The `event.detail` object of a CustomEvent, restricted to the two
properties the component reads; `none` models an absent property. -/
structure Detail where
  deviceName : Option String := none
  events : Option (List String) := none
deriving DecidableEq, Repr

/-- JS `String.prototype.replace` with a single-character pattern:
replaces only the first occurrence. -/
def replaceFirst (c r : Char) : List Char → List Char
  | [] => []
  | x :: xs => if x = c then r :: xs else x :: replaceFirst c r xs

/-- `deviceName.replace(' ', '-').toLowerCase()` (ArcSystem.js line 112). -/
def normalizeDeviceName (d : String) : String :=
  String.mk ((replaceFirst ' ' '-' d.data).map Char.toLower)

/-- Paircode derivation (ArcSystem.js line 112):
`this.data.app + '/' + event.detail.deviceName.replace(' ', '-').toLowerCase()`. -/
def derivePaircode (app device : String) : String :=
  app ++ "/" ++ normalizeDeviceName device

/-- Topic composition as used throughout ArcSystem.js:
`paircode + '/' + subtopic`. -/
def topicFor (paircode subtopic : String) : String :=
  paircode ++ "/" ++ subtopic

/-- JS `String.prototype.split` with a single-character separator; always
returns at least one piece (`"".split('/') == [""]`). -/
def splitOnChar (c : Char) : List Char → List (List Char)
  | [] => [[]]
  | x :: xs =>
    if x = c then [] :: splitOnChar c xs
    else
      match splitOnChar c xs with
      | [] => [[x]]
      | h :: t => (x :: h) :: t

/-- Subtopic extraction (ArcSystem.js lines 174-175):
`topicPath = topic.split('/'); subTopic = topicPath[topicPath.length - 1]`. -/
def subtopicOf (topic : String) : String :=
  String.mk (((splitOnChar '/' topic.data).getLast?).getD [])

/-- `activateEvents(type)` (ArcSystem.js lines 211-225): a debug line,
then either a "not connected" diagnostic or one ADD_EVENT_LISTENER
publish at QoS 2. -/
def activateEvents (s : ArcState) (ty : String) : List Effect :=
  Effect.consoleDebug ("Activate event: " ++ ty) ::
    match s.mqttClient with
    | none => [Effect.consoleDebug "MQTT not connected."]
    | some c =>
      if c.connected = false then [Effect.consoleDebug "MQTT not connected."]
      else [Effect.publish (s.paircode ++ "/" ++ ArcTopics.ADD_EVENT_LISTENER)
              (WireMsg.control ty) 2]

/-- `deactivateEvents(type)` (ArcSystem.js lines 246-260): symmetric to
`activateEvents` with REMOVE_EVENT_LISTENER. -/
def deactivateEvents (s : ArcState) (ty : String) : List Effect :=
  Effect.consoleDebug ("Deactivate event: " ++ ty) ::
    match s.mqttClient with
    | none => [Effect.consoleDebug "MQTT not connected."]
    | some c =>
      if c.connected = false then [Effect.consoleDebug "MQTT not connected."]
      else [Effect.publish (s.paircode ++ "/" ++ ArcTopics.REMOVE_EVENT_LISTENER)
              (WireMsg.control ty) 2]

/-- `activateEventsListener(event)` (ArcSystem.js lines 197-205): throws
an EventDetailError when the detail has no `events` property, otherwise
runs `activateEvents` for each requested type. It reads no writable state
and so returns only an outcome and a trace. -/
def activateEventsListener (s : ArcState) (detail : Detail) :
    Except EventDetailError Unit × List Effect :=
  match detail.events with
  | none => (.error ⟨"arc-remote-add-listener", "events", "array<string>"⟩, [])
  | some evs => (.ok (), (evs.map (activateEvents s)).flatten)

/-- `deactivateEventsListener(event)` (ArcSystem.js lines 232-240). -/
def deactivateEventsListener (s : ArcState) (detail : Detail) :
    Except EventDetailError Unit × List Effect :=
  match detail.events with
  | none => (.error ⟨"arc-remote-remove-listener", "events", "array<string>"⟩, [])
  | some evs => (.ok (), (evs.map (deactivateEvents s)).flatten)

/-- `arcsConnectListener(event)` (ArcSystem.js lines 104-137), in program
order: detach the `arcs-connect` listener and attach the `beforeunload`
listener; validate `deviceName` (throwing an EventDetailError when
absent); derive the paircode; connect the client and install the message
listener; subscribe STATUS, subscribe DATA, publish the vr/connected
status at QoS 2; when the detail's `events` property is truthy, run
`activateEventsListener` on the same event; finally attach the
add/remove-listener and `arcs-disconnect` listeners. -/
def arcsConnectListener (cfg : Config) (s : ArcState) (detail : Detail) :
    Except EventDetailError Unit × ArcState × List Effect :=
  let s1 := { s with connectAttached := false, beforeunloadAttached := true }
  match detail.deviceName with
  | none => (.error ⟨"arcs-connect", "deviceName", "string"⟩, s1, [])
  | some dn =>
    let pc := derivePaircode cfg.app dn
    let s2 := { s1 with paircode := pc, mqttClient := some ⟨true⟩, messageInstalled := true }
    let pre : List Effect :=
      [Effect.brokerConnect (brokerUrl cfg),
       Effect.installMessageListener,
       Effect.subscribe (topicFor pc ArcTopics.STATUS),
       Effect.subscribe (topicFor pc ArcTopics.DATA),
       Effect.publish (topicFor pc ArcTopics.STATUS) (WireMsg.status "vr" true) 2]
    match detail.events with
    | none =>
      (.ok (),
       { s2 with addListenerAttached := true, removeListenerAttached := true,
                 disconnectAttached := true },
       pre)
    | some _ =>
      match activateEventsListener s2 detail with
      | (.error e, effs) => (.error e, s2, pre ++ effs)
      | (.ok _, effs) =>
        (.ok (),
         { s2 with addListenerAttached := true, removeListenerAttached := true,
                   disconnectAttached := true },
         pre ++ effs)

/-- `arcsDisconnectListener()` (ArcSystem.js lines 143-163), in program
order: detach the `arcs-disconnect` and `beforeunload` listeners; then on
the client (a TypeError if it is `null`): unsubscribe DATA, unsubscribe
STATUS, publish the vr/disconnected status at QoS 2, `end()` the client;
finally re-attach the `arcs-connect` listener. -/
def arcsDisconnectListener (s : ArcState) :
    Except JsError Unit × ArcState × List Effect :=
  let s1 := { s with disconnectAttached := false, beforeunloadAttached := false }
  match s1.mqttClient with
  | none => (.error (.typeError "Cannot read properties of null"), s1, [])
  | some _ =>
    (.ok (),
     { s1 with connectAttached := true },
     [Effect.unsubscribe (topicFor s1.paircode ArcTopics.DATA),
      Effect.unsubscribe (topicFor s1.paircode ArcTopics.STATUS),
      Effect.publish (topicFor s1.paircode ArcTopics.STATUS) (WireMsg.status "vr" false) 2,
      Effect.endClient])

/-- `messageListener(topic, payload)` (ArcSystem.js lines 173-190): split
the topic, parse the payload (the parse error propagates out of the
async listener when `JSON.parse` throws), then route on the subtopic:
STATUS with `type === 'remote'` and truthy `connected` emits
`arc-remote-connected`; DATA dispatches the parsed message as a window
event; every other subtopic does nothing. -/
def messageListener (topic : String) (payload : Payload) :
    Except DecodeError (List Effect) :=
  match jsonParse payload with
  | .error e => .error e
  | .ok message =>
    let subTopic := subtopicOf topic
    .ok (if subTopic = ArcTopics.STATUS then
           (if message.msgType = some "remote" then
              (if message.connected then [Effect.emit "arc-remote-connected"] else [])
            else [])
         else if subTopic = ArcTopics.DATA then
           [Effect.dispatchWindowEvent message]
         else [])

/-- DOM dispatch of an `arcs-connect` CustomEvent against an instance:
the listener body runs only when the listener is currently attached;
otherwise the dispatch is a no-op. -/
def dispatchArcsConnect (cfg : Config) (s : ArcState) (detail : Detail) :
    Except EventDetailError Unit × ArcState × List Effect :=
  if s.connectAttached then arcsConnectListener cfg s detail else (.ok (), s, [])

/-! ## Lemmas about `splitOnChar` -/

theorem splitOnChar_ne_nil (c : Char) : ∀ l : List Char, splitOnChar c l ≠ []
  | [] => by simp [splitOnChar]
  | x :: xs => by
    have ih := splitOnChar_ne_nil c xs
    simp only [splitOnChar]
    split
    · simp
    · cases h : splitOnChar c xs with
      | nil => exact absurd h ih
      | cons a t => simp [h]

theorem splitOnChar_of_not_mem (c : Char) :
    ∀ l : List Char, c ∉ l → splitOnChar c l = [l]
  | [], _ => rfl
  | x :: xs, h => by
    have hx : x ≠ c := fun hxc => h (hxc ▸ List.mem_cons_self x xs)
    have hxs : c ∉ xs := fun hm => h (List.mem_cons_of_mem x hm)
    simp only [splitOnChar, if_neg hx, splitOnChar_of_not_mem c xs hxs]

theorem two_le_length_splitOnChar (c : Char) (s : List Char) :
    ∀ p : List Char, 2 ≤ (splitOnChar c (p ++ c :: s)).length
  | [] => by
    have h1 : 0 < (splitOnChar c s).length :=
      List.length_pos.mpr (splitOnChar_ne_nil c s)
    have h2 : splitOnChar c ([] ++ c :: s) = [] :: splitOnChar c s := by
      simp [splitOnChar]
    rw [h2, List.length_cons]
    omega
  | x :: p => by
    have ih := two_le_length_splitOnChar c s p
    rw [List.cons_append]
    by_cases hx : x = c
    · have h2 : splitOnChar c (x :: (p ++ c :: s))
          = [] :: splitOnChar c (p ++ c :: s) := by
        simp [splitOnChar, hx]
      rw [h2, List.length_cons]
      omega
    · cases h : splitOnChar c (p ++ c :: s) with
      | nil => exact absurd h (splitOnChar_ne_nil c _)
      | cons a t =>
        have h2 : splitOnChar c (x :: (p ++ c :: s)) = (x :: a) :: t := by
          simp [splitOnChar, hx, h]
        rw [h] at ih
        rw [h2]
        simp only [List.length_cons] at ih ⊢
        omega

theorem getLast?_splitOnChar_append (c : Char) (s : List Char) :
    ∀ p : List Char,
      (splitOnChar c (p ++ c :: s)).getLast? = (splitOnChar c s).getLast?
  | [] => by
    have h2 : splitOnChar c ([] ++ c :: s) = [] :: splitOnChar c s := by
      simp [splitOnChar]
    rw [h2]
    cases h : splitOnChar c s with
    | nil => exact absurd h (splitOnChar_ne_nil c s)
    | cons a t => rw [List.getLast?_cons_cons]
  | x :: p => by
    have ih := getLast?_splitOnChar_append c s p
    rw [List.cons_append]
    by_cases hx : x = c
    · have h2 : splitOnChar c (x :: (p ++ c :: s))
          = [] :: splitOnChar c (p ++ c :: s) := by
        simp [splitOnChar, hx]
      rw [h2]
      cases h : splitOnChar c (p ++ c :: s) with
      | nil => exact absurd h (splitOnChar_ne_nil c _)
      | cons a t =>
        rw [h] at ih
        rw [List.getLast?_cons_cons, ih]
    · have hlen := two_le_length_splitOnChar c s p
      cases h : splitOnChar c (p ++ c :: s) with
      | nil => exact absurd h (splitOnChar_ne_nil c _)
      | cons a t =>
        have h2 : splitOnChar c (x :: (p ++ c :: s)) = (x :: a) :: t := by
          simp [splitOnChar, hx, h]
        rw [h2]
        rw [h] at ih hlen
        cases t with
        | nil => simp at hlen
        | cons b t2 =>
          rw [List.getLast?_cons_cons] at ih ⊢
          exact ih

/-! ## Claim theorems -/

/-- C1: paircode derivation is deterministic (equal inputs give an equal
paircode) and normalizes case and the space, so that
`derivePaircode "app" "My Device" = "app/my-device"`. -/
theorem derivePaircode_deterministic_and_normalized :
    (∀ a₁ d₁ a₂ d₂ : String, a₁ = a₂ → d₁ = d₂ →
        derivePaircode a₁ d₁ = derivePaircode a₂ d₂)
    ∧ derivePaircode "app" "My Device" = "app/my-device" := by
  refine ⟨fun a₁ d₁ a₂ d₂ ha hd => ?_, ?_⟩
  · rw [ha, hd]
  · decide

/-- Witness for C1 at concrete inputs. -/
theorem derivePaircode_deterministic_witness :
    derivePaircode "app" "duck" = derivePaircode "app" "duck" :=
  derivePaircode_deterministic_and_normalized.1 "app" "duck" "app" "duck" rfl rfl

/-- C2: for every paircode `p` and delimiter-free subtopic `s`, extracting
the last `/`-separated segment of the composed topic `p ++ "/" ++ s`
returns `s`: `subtopicOf (topicFor p s) = s`. -/
theorem subtopicOf_topicFor (p s : String) (h : '/' ∉ s.data) :
    subtopicOf (topicFor p s) = s := by
  have hdata : (topicFor p s).data = p.data ++ '/' :: s.data := by
    simp [topicFor, String.data_append]
  rw [subtopicOf, hdata, getLast?_splitOnChar_append,
      splitOnChar_of_not_mem '/' s.data h]
  rfl

/-- Witness for C2 at concrete inputs. -/
theorem subtopicOf_topicFor_witness :
    subtopicOf (topicFor "app/my-device" "status") = "status" :=
  subtopicOf_topicFor "app/my-device" "status" (by decide)

/-- C3: a connect request whose detail lacks `deviceName` fails with the
structured EventDetailError for `arcs-connect`/`deviceName`, and its
effect trace is empty: no broker connect, subscribe or publish is
performed before (or after) the error is raised. -/
theorem connect_missing_deviceName (cfg : Config) (s : ArcState) (detail : Detail)
    (h : detail.deviceName = none) :
    arcsConnectListener cfg s detail
      = (.error ⟨"arcs-connect", "deviceName", "string"⟩,
         { s with connectAttached := false, beforeunloadAttached := true },
         []) := by
  simp [arcsConnectListener, h]

/-- Witness for C3 at a concrete configuration, state and detail. -/
theorem connect_missing_deviceName_witness :
    arcsConnectListener ⟨"ws", "localhost", 1883, "app", none⟩ {} {}
      = (.error ⟨"arcs-connect", "deviceName", "string"⟩,
         { connectAttached := false, beforeunloadAttached := true },
         []) :=
  connect_missing_deviceName ⟨"ws", "localhost", 1883, "app", none⟩ {} {} rfl

/-- C4 counterexample: an add-listener request whose detail carries an
empty `events` list does not fail — on a connected instance the listener
returns normally (no EventDetailError) with an empty trace, refuting the
claim that an empty `events` field fails with a MalformedRequestError. -/
theorem activate_empty_events_no_error :
    activateEventsListener
        { paircode := "app/my-device", mqttClient := some ⟨true⟩ } ⟨none, some []⟩
      = (.ok (), [])
    ∧ deactivateEventsListener
        { paircode := "app/my-device", mqttClient := some ⟨true⟩ } ⟨none, some []⟩
      = (.ok (), []) := by
  constructor <;> rfl

/-- C4 (amended): an activate or deactivate request with a *missing*
`events` field fails with the structured EventDetailError and publishes
nothing; a request with an *empty* `events` list raises no error and also
publishes nothing. -/
theorem activate_deactivate_events_validation (s : ArcState) (detail : Detail) :
    (detail.events = none →
        activateEventsListener s detail
          = (.error ⟨"arc-remote-add-listener", "events", "array<string>"⟩, [])
      ∧ deactivateEventsListener s detail
          = (.error ⟨"arc-remote-remove-listener", "events", "array<string>"⟩, []))
    ∧ (detail.events = some [] →
        activateEventsListener s detail = (.ok (), [])
      ∧ deactivateEventsListener s detail = (.ok (), [])) := by
  constructor
  · intro h
    constructor
    · simp [activateEventsListener, h]
    · simp [deactivateEventsListener, h]
  · intro h
    constructor
    · simp [activateEventsListener, h]
    · simp [deactivateEventsListener, h]

/-- Witness for C4's amended theorem at concrete inputs: both the
missing-field and the empty-list cases. -/
theorem activate_deactivate_events_validation_witness :
    (activateEventsListener {} {}
        = (.error ⟨"arc-remote-add-listener", "events", "array<string>"⟩, [])
      ∧ deactivateEventsListener {} {}
        = (.error ⟨"arc-remote-remove-listener", "events", "array<string>"⟩, []))
    ∧ (activateEventsListener {} ⟨none, some []⟩ = (.ok (), [])
      ∧ deactivateEventsListener {} ⟨none, some []⟩ = (.ok (), [])) :=
  ⟨(activate_deactivate_events_validation {} {}).1 rfl,
   (activate_deactivate_events_validation {} ⟨none, some []⟩).2 rfl⟩

/-- C5: every successful connect with a valid deviceName produces exactly
this effect trace: broker connect and message-listener installation, then
subscribe STATUS, subscribe DATA, publish the status message
`{type:"vr",connected:true}` at QoS 2, then — only when an initial
`events` list was supplied — for each initial event type its activation
(a diagnostic line followed by one ADD_EVENT_LISTENER publish); in
particular no effect of a later step precedes an earlier one. -/
theorem connect_effect_order (cfg : Config) (s : ArcState) (detail : Detail)
    (dn : String) (h1 : detail.deviceName = some dn) :
    ∃ s' : ArcState,
      arcsConnectListener cfg s detail
        = (.ok (), s',
           [Effect.brokerConnect (brokerUrl cfg),
            Effect.installMessageListener,
            Effect.subscribe (topicFor (derivePaircode cfg.app dn) ArcTopics.STATUS),
            Effect.subscribe (topicFor (derivePaircode cfg.app dn) ArcTopics.DATA),
            Effect.publish (topicFor (derivePaircode cfg.app dn) ArcTopics.STATUS)
              (WireMsg.status "vr" true) 2]
           ++ detail.events.elim []
                (fun evs => (evs.map (fun t =>
                   [Effect.consoleDebug ("Activate event: " ++ t),
                    Effect.publish
                      (topicFor (derivePaircode cfg.app dn) ArcTopics.ADD_EVENT_LISTENER)
                      (WireMsg.control t) 2])).flatten)) := by
  cases detail with
  | mk ddn devs =>
    have h1' : ddn = some dn := h1
    subst h1'
    cases devs with
    | none => exact ⟨_, rfl⟩
    | some evs => exact ⟨_, rfl⟩

/-- Witness for C5 at concrete inputs: a connect with an initial events
list and a connect whose detail has no events field. -/
theorem connect_effect_order_witness :
    (∃ s' : ArcState,
      arcsConnectListener ⟨"ws", "localhost", 1883, "app", none⟩ {}
          ⟨some "My Device", some ["keydown"]⟩
        = (.ok (), s',
           [Effect.brokerConnect
              (brokerUrl ⟨"ws", "localhost", 1883, "app", none⟩),
            Effect.installMessageListener,
            Effect.subscribe
              (topicFor (derivePaircode "app" "My Device") ArcTopics.STATUS),
            Effect.subscribe
              (topicFor (derivePaircode "app" "My Device") ArcTopics.DATA),
            Effect.publish
              (topicFor (derivePaircode "app" "My Device") ArcTopics.STATUS)
              (WireMsg.status "vr" true) 2]
           ++ (Detail.mk (some "My Device") (some ["keydown"])).events.elim []
                (fun evs => (evs.map (fun t =>
                   [Effect.consoleDebug ("Activate event: " ++ t),
                    Effect.publish
                      (topicFor (derivePaircode "app" "My Device")
                        ArcTopics.ADD_EVENT_LISTENER)
                      (WireMsg.control t) 2])).flatten)))
    ∧ (∃ s' : ArcState,
      arcsConnectListener ⟨"ws", "localhost", 1883, "app", none⟩ {}
          ⟨some "My Device", none⟩
        = (.ok (), s',
           [Effect.brokerConnect
              (brokerUrl ⟨"ws", "localhost", 1883, "app", none⟩),
            Effect.installMessageListener,
            Effect.subscribe
              (topicFor (derivePaircode "app" "My Device") ArcTopics.STATUS),
            Effect.subscribe
              (topicFor (derivePaircode "app" "My Device") ArcTopics.DATA),
            Effect.publish
              (topicFor (derivePaircode "app" "My Device") ArcTopics.STATUS)
              (WireMsg.status "vr" true) 2]
           ++ (Detail.mk (some "My Device") none).events.elim []
                (fun evs => (evs.map (fun t =>
                   [Effect.consoleDebug ("Activate event: " ++ t),
                    Effect.publish
                      (topicFor (derivePaircode "app" "My Device")
                        ArcTopics.ADD_EVENT_LISTENER)
                      (WireMsg.control t) 2])).flatten))) :=
  ⟨connect_effect_order ⟨"ws", "localhost", 1883, "app", none⟩ {}
    ⟨some "My Device", some ["keydown"]⟩ "My Device" rfl,
   connect_effect_order ⟨"ws", "localhost", 1883, "app", none⟩ {}
    ⟨some "My Device", none⟩ "My Device" rfl⟩

/-- C6: a disconnect from a connected session (the client handle is
present) performs exactly, in order: unsubscribe DATA, unsubscribe STATUS
(the reverse of the subscribe order), publish the status message
`{type:"vr",connected:false}` at the acknowledged QoS 2, and finally end
the transport; it succeeds and re-attaches the connect listener. -/
theorem disconnect_effect_order (s : ArcState) (c : MqttClient)
    (h : s.mqttClient = some c) :
    arcsDisconnectListener s
      = (.ok (),
         { s with disconnectAttached := false, beforeunloadAttached := false,
                  connectAttached := true },
         [Effect.unsubscribe (topicFor s.paircode ArcTopics.DATA),
          Effect.unsubscribe (topicFor s.paircode ArcTopics.STATUS),
          Effect.publish (topicFor s.paircode ArcTopics.STATUS)
            (WireMsg.status "vr" false) 2,
          Effect.endClient]) := by
  simp [arcsDisconnectListener, h]

/-- Witness for C6 at a concrete connected state. -/
theorem disconnect_effect_order_witness :
    arcsDisconnectListener
        { paircode := "app/my-device", mqttClient := some ⟨true⟩,
          connectAttached := false, disconnectAttached := true,
          beforeunloadAttached := true }
      = (.ok (),
         { paircode := "app/my-device", mqttClient := some ⟨true⟩,
           connectAttached := true, disconnectAttached := false,
           beforeunloadAttached := false },
         [Effect.unsubscribe (topicFor "app/my-device" ArcTopics.DATA),
          Effect.unsubscribe (topicFor "app/my-device" ArcTopics.STATUS),
          Effect.publish (topicFor "app/my-device" ArcTopics.STATUS)
            (WireMsg.status "vr" false) 2,
          Effect.endClient]) :=
  disconnect_effect_order
    { paircode := "app/my-device", mqttClient := some ⟨true⟩,
      connectAttached := false, disconnectAttached := true,
      beforeunloadAttached := true } ⟨true⟩ rfl

/-- C7: activating a single event type `[t]` while the client is absent
or not connected performs no broker operation and raises no error, while
activating it on a connected client publishes exactly one
ADD_EVENT_LISTENER control message `{type: t}` at QoS 2; deactivation is
symmetric with REMOVE_EVENT_LISTENER. -/
theorem activate_single_event (s : ArcState) (t : String) :
    ((s.mqttClient = none ∨ s.mqttClient = some ⟨false⟩) →
        (activateEventsListener s ⟨none, some [t]⟩).1 = .ok ()
      ∧ brokerOps (activateEventsListener s ⟨none, some [t]⟩).2 = []
      ∧ (deactivateEventsListener s ⟨none, some [t]⟩).1 = .ok ()
      ∧ brokerOps (deactivateEventsListener s ⟨none, some [t]⟩).2 = [])
    ∧ (s.mqttClient = some ⟨true⟩ →
        brokerOps (activateEventsListener s ⟨none, some [t]⟩).2
          = [Effect.publish (topicFor s.paircode ArcTopics.ADD_EVENT_LISTENER)
               (WireMsg.control t) 2]
      ∧ brokerOps (deactivateEventsListener s ⟨none, some [t]⟩).2
          = [Effect.publish (topicFor s.paircode ArcTopics.REMOVE_EVENT_LISTENER)
               (WireMsg.control t) 2]) := by
  constructor
  · rintro (h | h) <;>
      simp [activateEventsListener, deactivateEventsListener, activateEvents,
        deactivateEvents, h, brokerOps, Effect.isBrokerOp]
  · intro h
    simp [activateEventsListener, deactivateEventsListener, activateEvents,
      deactivateEvents, h, brokerOps, Effect.isBrokerOp, topicFor]

/-- Witness for C7: the disconnected case at a null client and the
connected case, both at concrete inputs. -/
theorem activate_single_event_witness :
    ((activateEventsListener {} ⟨none, some ["keydown"]⟩).1 = .ok ()
      ∧ brokerOps (activateEventsListener {} ⟨none, some ["keydown"]⟩).2 = []
      ∧ (deactivateEventsListener {} ⟨none, some ["keydown"]⟩).1 = .ok ()
      ∧ brokerOps (deactivateEventsListener {} ⟨none, some ["keydown"]⟩).2 = [])
    ∧ (brokerOps (activateEventsListener
          { paircode := "app/my-device", mqttClient := some ⟨true⟩ }
          ⟨none, some ["keydown"]⟩).2
        = [Effect.publish (topicFor "app/my-device" ArcTopics.ADD_EVENT_LISTENER)
             (WireMsg.control "keydown") 2]
      ∧ brokerOps (deactivateEventsListener
          { paircode := "app/my-device", mqttClient := some ⟨true⟩ }
          ⟨none, some ["keydown"]⟩).2
        = [Effect.publish (topicFor "app/my-device" ArcTopics.REMOVE_EVENT_LISTENER)
             (WireMsg.control "keydown") 2]) :=
  ⟨(activate_single_event {} "keydown").1 (Or.inl rfl),
   (activate_single_event
      { paircode := "app/my-device", mqttClient := some ⟨true⟩ } "keydown").2 rfl⟩

/-- C8: on a STATUS subtopic the `arc-remote-connected` notification is
emitted exactly when the decoded message has `type = "remote"` and
`connected = true` (and it is the only effect); on a subtopic that is
neither STATUS nor DATA a well-formed message produces no effect and no
error. -/
theorem messageListener_status_routing (topic : String) (m : Msg) :
    (subtopicOf topic = ArcTopics.STATUS →
        messageListener topic (.wellFormed m)
          = .ok (if m.msgType = some "remote" ∧ m.connected = true
                 then [Effect.emit "arc-remote-connected"] else []))
    ∧ (subtopicOf topic ≠ ArcTopics.STATUS → subtopicOf topic ≠ ArcTopics.DATA →
        messageListener topic (.wellFormed m) = .ok []) := by
  constructor
  · intro h
    simp only [messageListener, jsonParse, h, if_pos rfl]
    by_cases h1 : m.msgType = some "remote" <;>
      by_cases h2 : m.connected = true <;>
      simp [h1, h2]
  · intro h1 h2
    simp [messageListener, jsonParse, h1, h2]

/-- Witness for C8: a remote/connected status message on the STATUS
subtopic, and an ignored message on an unknown subtopic, at concrete
inputs. -/
theorem messageListener_status_routing_witness :
    messageListener "app/my-device/status" (.wellFormed ⟨some "remote", true⟩)
      = .ok (if (some "remote" : Option String) = some "remote" ∧ true = true
             then [Effect.emit "arc-remote-connected"] else [])
    ∧ messageListener "app/my-device/other" (.wellFormed ⟨some "remote", true⟩)
      = .ok [] :=
  ⟨(messageListener_status_routing "app/my-device/status" ⟨some "remote", true⟩).1
      (by decide),
   (messageListener_status_routing "app/my-device/other" ⟨some "remote", true⟩).2
      (by decide) (by decide)⟩

/-- C9 (code behaviour at the failing input): a malformed payload makes
`messageListener` propagate the `JSON.parse` error — the handler throws
instead of logging and dropping the message — while a well-formed DATA
message (each invocation being independent) is still relayed as a window
event. -/
theorem messageListener_decode_error_propagates :
    (∀ topic : String, messageListener topic .malformed = .error .jsonParseError)
    ∧ messageListener (topicFor "app/my-device" ArcTopics.DATA)
        (.wellFormed { msgType := some "keydown" })
      = .ok [Effect.dispatchWindowEvent { msgType := some "keydown" }] := by
  refine ⟨fun topic => rfl, rfl⟩

/-- C10: a connect request that fails validation (no `deviceName`) leaves
the instance with its `arcs-connect` listener detached, so a subsequent
connect trigger on the instance is silently ignored (no error, no state
change, no effects); the listener is re-attached only by a completed
disconnect: a disconnect with a live client succeeds and re-attaches it,
while a disconnect that dies on a null client leaves it as it was. -/
theorem failed_connect_leaves_listener_detached (cfg : Config) (s : ArcState)
    (detail d2 : Detail) (h : detail.deviceName = none) :
    (arcsConnectListener cfg s detail).2.1.connectAttached = false
    ∧ dispatchArcsConnect cfg (arcsConnectListener cfg s detail).2.1 d2
        = (.ok (), (arcsConnectListener cfg s detail).2.1, [])
    ∧ (∀ s2 : ArcState, ∀ c : MqttClient, s2.mqttClient = some c →
        (arcsDisconnectListener s2).1 = .ok ()
        ∧ (arcsDisconnectListener s2).2.1.connectAttached = true)
    ∧ (∀ s2 : ArcState, s2.mqttClient = none →
        (arcsDisconnectListener s2).2.1.connectAttached = s2.connectAttached) := by
  have hc : arcsConnectListener cfg s detail
      = (.error ⟨"arcs-connect", "deviceName", "string"⟩,
         { s with connectAttached := false, beforeunloadAttached := true }, []) := by
    simp [arcsConnectListener, h]
  refine ⟨by rw [hc], by rw [hc]; simp [dispatchArcsConnect], ?_, ?_⟩
  · intro s2 c h2
    constructor <;> simp [arcsDisconnectListener, h2]
  · intro s2 h2
    simp [arcsDisconnectListener, h2]

/-- Witness for C10 at concrete inputs: a failed connect on a fresh
instance, a re-dispatch that is ignored, a successful disconnect that
re-arms, and a null-client disconnect that does not. -/
theorem failed_connect_leaves_listener_detached_witness :
    (arcsConnectListener ⟨"ws", "localhost", 1883, "app", none⟩ {} {}).2.1.connectAttached
      = false
    ∧ dispatchArcsConnect ⟨"ws", "localhost", 1883, "app", none⟩
        (arcsConnectListener ⟨"ws", "localhost", 1883, "app", none⟩ {} {}).2.1
        ⟨some "duck", none⟩
        = (.ok (),
           (arcsConnectListener ⟨"ws", "localhost", 1883, "app", none⟩ {} {}).2.1, [])
    ∧ ((arcsDisconnectListener
          { paircode := "app/duck", mqttClient := some ⟨true⟩ }).1 = .ok ()
      ∧ (arcsDisconnectListener
          { paircode := "app/duck", mqttClient := some ⟨true⟩ }).2.1.connectAttached
        = true)
    ∧ (arcsDisconnectListener
        { connectAttached := false }).2.1.connectAttached
      = ({ connectAttached := false } : ArcState).connectAttached :=
  ⟨(failed_connect_leaves_listener_detached ⟨"ws", "localhost", 1883, "app", none⟩
      {} {} ⟨some "duck", none⟩ rfl).1,
   (failed_connect_leaves_listener_detached ⟨"ws", "localhost", 1883, "app", none⟩
      {} {} ⟨some "duck", none⟩ rfl).2.1,
   (failed_connect_leaves_listener_detached ⟨"ws", "localhost", 1883, "app", none⟩
      {} {} ⟨some "duck", none⟩ rfl).2.2.1
      { paircode := "app/duck", mqttClient := some ⟨true⟩ } ⟨true⟩ rfl,
   (failed_connect_leaves_listener_detached ⟨"ws", "localhost", 1883, "app", none⟩
      {} {} ⟨some "duck", none⟩ rfl).2.2.2 { connectAttached := false } rfl⟩

end Arc
